import Mathlib

/-!
A shallow embedding of the event-consumption pipeline of `sched-analyzer`
(`src/sched-analyzer.c`), faithful to the source:

* configuration flags (`sa_opts`) become a structure of booleans plus the
  pid / comm allow-lists;
* the per-event handler functions become pure Lean functions returning the
  ordered list of trace records they emit, the log messages they print and
  their integer return value;
* C `unsigned long` fields compared against `-1` are modelled as `Nat`
  compared against `SENTINEL = 2^64 - 1` (the value `(unsigned long)-1`
  takes on a 64-bit machine); signed `int` fields compared against `-1`
  are modelled as `Int` compared against `-1`;
* C strings (`char *comm`) are modelled as `List Char`, and `strstr`
  as substring (infix) containment;
* the poll/worker loop and `main`'s startup / cleanup control flow are
  modelled as functions of the outcomes of the external calls they make.

The event structures follow the fields accessed by `sched-analyzer.c`
(`sched-analyzer-events.h` in this tree is stale and lacks several fields
the C file reads; the field list is taken from the accesses in the C file).
The numeric values of the `PELT_TYPE_*` and `LB_*` enum constants are not
in the tree; only their distinctness matters to the handlers, so they are
modelled as inductive types with an extra constructor for any
unrecognized value.
-/

namespace SchedAnalyzer

/-- `(unsigned long)-1` on a 64-bit machine: the "not tracked" sentinel. -/
def SENTINEL : Nat := 2 ^ 64 - 1

/-- Linux `EINTR` error number, as used by `-EINTR` in `POLL_EVENT_RB`. -/
def EINTR : Int := 4

/-- The `sa_opts` configuration consumed by the handlers: capability
booleans plus the pid and comm allow-lists (`num_pids` / `num_comms` are
the list lengths). -/
structure SaOpts where
  load_avg_cpu : Bool
  runnable_avg_cpu : Bool
  util_avg_cpu : Bool
  util_avg_rt : Bool
  util_avg_dl : Bool
  util_avg_irq : Bool
  load_avg_thermal : Bool
  util_est_cpu : Bool
  load_avg_task : Bool
  runnable_avg_task : Bool
  util_avg_task : Bool
  util_est_task : Bool
  cpu_nr_running : Bool
  cpu_idle : Bool
  load_balance : Bool
  ipi : Bool
  pid : List Int
  comm : List (List Char)
deriving DecidableEq

/-- The PELT signal type carried by a `rq_pelt_event`.  `other n` stands
for any enum value that is none of the five named constants. -/
inductive PeltType where
  | cfs
  | rt
  | dl
  | irq
  | thermal
  | other (n : Nat)
deriving DecidableEq

/-- The load-balance phase enum of `lb_event`.  `other n` stands for any
value outside the seven named constants (the C `switch` has no `default`,
leaving the phase name "unknown"). -/
inductive LbPhase where
  | nohz_idle_balance
  | run_rebalance_domains
  | rebalance_domains
  | balance_fair
  | pick_next_task_fair
  | newidle_balance
  | load_balance
  | other (n : Nat)
deriving DecidableEq

/-- `struct rq_pelt_event`, with the fields `handle_rq_pelt_event` reads. -/
structure RqPeltEvent where
  ts : Nat
  cpu : Int
  type : PeltType
  load_avg : Nat
  runnable_avg : Nat
  util_avg : Nat
  uclamp_min : Nat
  uclamp_max : Nat
  util_est_enqueued : Nat
deriving DecidableEq

/-- `struct task_pelt_event`, with the fields `handle_task_pelt_event` reads. -/
structure TaskPeltEvent where
  ts : Nat
  pid : Int
  comm : List Char
  load_avg : Nat
  runnable_avg : Nat
  util_avg : Nat
  uclamp_min : Nat
  uclamp_max : Nat
  util_est_enqueued : Nat
  util_est_ewma : Nat
deriving DecidableEq

/-- `struct sched_switch_event`, with the fields `handle_sched_switch_event` reads. -/
structure SchedSwitchEvent where
  ts : Nat
  pid : Int
  comm : List Char
  running : Bool
deriving DecidableEq

/-- `struct lb_event`, with the fields `handle_lb_event` reads.  The
`sd_stats` payload is opaque to the handler (passed by pointer to
`trace_lb_sd_stats`), so it is modelled as an abstract `Nat` token. -/
structure LbEvent where
  ts : Nat
  phase : LbPhase
  entry : Bool
  this_cpu : Int
  lb_cpu : Int
  overloaded : Int
  overutilized : Int
  misfit_task_load : Int
  sd_stats : Nat
deriving DecidableEq

/-- One emitted trace record: one constructor per `trace_*` sink call the
modelled handlers can make, carrying exactly the arguments passed. -/
inductive TraceRecord where
  | cpuLoadAvg (ts : Nat) (cpu : Int) (v : Nat)
  | cpuRunnableAvg (ts : Nat) (cpu : Int) (v : Nat)
  | cpuLoadAvgThermal (ts : Nat) (cpu : Int) (v : Nat)
  | cpuUtilAvg (ts : Nat) (cpu : Int) (v : Nat)
  | cpuUclampedAvg (ts : Nat) (cpu : Int) (v : Nat)
  | cpuUtilAvgRt (ts : Nat) (cpu : Int) (v : Nat)
  | cpuUtilAvgDl (ts : Nat) (cpu : Int) (v : Nat)
  | cpuUtilAvgIrq (ts : Nat) (cpu : Int) (v : Nat)
  | cpuUtilEstEnqueued (ts : Nat) (cpu : Int) (v : Nat)
  | taskLoadAvg (ts : Nat) (comm : List Char) (pid : Int) (v : Nat)
  | taskRunnableAvg (ts : Nat) (comm : List Char) (pid : Int) (v : Nat)
  | taskUtilAvg (ts : Nat) (comm : List Char) (pid : Int) (v : Nat)
  | taskUclampedAvg (ts : Nat) (comm : List Char) (pid : Int) (v : Nat)
  | taskUtilEstEnqueued (ts : Nat) (comm : List Char) (pid : Int) (v : Nat)
  | taskUtilEstEwma (ts : Nat) (comm : List Char) (pid : Int) (v : Nat)
  | lbSdStats (ts : Nat) (sd : Nat)
  | lbOverloaded (ts : Nat) (v : Int)
  | lbOverutilized (ts : Nat) (v : Int)
  | lbMisfit (ts : Nat) (cpu : Int) (v : Int)
  | lbEntry (ts : Nat) (this_cpu : Int) (lb_cpu : Int) (phase : String)
  | lbExit (ts : Nat) (this_cpu : Int) (lb_cpu : Int)
deriving DecidableEq

/-- The category (which sink call) of a `TraceRecord`, forgetting the
payload: used to state "no record of the kind derived from field F". -/
inductive RecKind where
  | cpuLoadAvg
  | cpuRunnableAvg
  | cpuLoadAvgThermal
  | cpuUtilAvg
  | cpuUclampedAvg
  | cpuUtilAvgRt
  | cpuUtilAvgDl
  | cpuUtilAvgIrq
  | cpuUtilEstEnqueued
  | taskLoadAvg
  | taskRunnableAvg
  | taskUtilAvg
  | taskUclampedAvg
  | taskUtilEstEnqueued
  | taskUtilEstEwma
  | lbSdStats
  | lbOverloaded
  | lbOverutilized
  | lbMisfit
  | lbEntry
  | lbExit
deriving DecidableEq

/-- Map a record to its category. -/
def TraceRecord.kind : TraceRecord → RecKind
  | .cpuLoadAvg _ _ _ => .cpuLoadAvg
  | .cpuRunnableAvg _ _ _ => .cpuRunnableAvg
  | .cpuLoadAvgThermal _ _ _ => .cpuLoadAvgThermal
  | .cpuUtilAvg _ _ _ => .cpuUtilAvg
  | .cpuUclampedAvg _ _ _ => .cpuUclampedAvg
  | .cpuUtilAvgRt _ _ _ => .cpuUtilAvgRt
  | .cpuUtilAvgDl _ _ _ => .cpuUtilAvgDl
  | .cpuUtilAvgIrq _ _ _ => .cpuUtilAvgIrq
  | .cpuUtilEstEnqueued _ _ _ => .cpuUtilEstEnqueued
  | .taskLoadAvg _ _ _ _ => .taskLoadAvg
  | .taskRunnableAvg _ _ _ _ => .taskRunnableAvg
  | .taskUtilAvg _ _ _ _ => .taskUtilAvg
  | .taskUclampedAvg _ _ _ _ => .taskUclampedAvg
  | .taskUtilEstEnqueued _ _ _ _ => .taskUtilEstEnqueued
  | .taskUtilEstEwma _ _ _ _ => .taskUtilEstEwma
  | .lbSdStats _ _ => .lbSdStats
  | .lbOverloaded _ _ => .lbOverloaded
  | .lbOverutilized _ _ => .lbOverutilized
  | .lbMisfit _ _ _ => .lbMisfit
  | .lbEntry _ _ _ _ => .lbEntry
  | .lbExit _ _ _ => .lbExit

/-- `true` iff the record list holds some record of category `k`. -/
def hasKind (l : List TraceRecord) (k : RecKind) : Bool :=
  l.any fun r => r.kind == k

/-- Number of records of category `k` in the list. -/
def countKind (l : List TraceRecord) (k : RecKind) : Nat :=
  (l.filter fun r => r.kind == k).length

/-- One `stderr` diagnostic a modelled handler can print. -/
inductive LogMsg where
  | unexpectedPeltType (t : PeltType)
deriving DecidableEq

/-- What a handler invocation produces: the ordered records passed to the
trace sink, the log messages, and the handler's return value. -/
structure Output where
  records : List TraceRecord
  logs : List LogMsg
  ret : Int
deriving DecidableEq

/-- The `clamp` macro of `sched-analyzer.c`, on `unsigned long` operands:
`(val) >= (hi) ? (hi) : ((val) <= (lo) ? (lo) : (val))`. -/
def clamp (val lo hi : Nat) : Nat :=
  if val ≥ hi then hi else if val ≤ lo then lo else val

/-- `needle` matches at the head of `hay` (character-wise). -/
def matchesAt : List Char → List Char → Bool
  | [], _ => true
  | _ :: _, [] => false
  | a :: as, b :: bs => a == b && matchesAt as bs

/-- C `strstr(hay, needle) != NULL`: `needle` occurs as a contiguous
substring of `hay` (the empty needle always matches). -/
def strstr (hay needle : List Char) : Bool :=
  match hay with
  | [] => matchesAt needle []
  | c :: t => matchesAt needle (c :: t) || strstr t needle

/-- `ignore_pid_comm`: empty filters collect everything; otherwise a task
is kept (not ignored) iff its pid is allow-listed or its comm contains an
allow-listed substring (`strstr`). -/
def ignore_pid_comm (opts : SaOpts) (pid : Int) (comm : List Char) : Bool :=
  if opts.pid.isEmpty && opts.comm.isEmpty then false
  else if opts.pid.any fun p => p == pid then false
  else if opts.comm.any fun s => strstr comm s then false
  else true

/-- `handle_rq_pelt_event`, emitting records in source order: cpu
load_avg, cpu runnable_avg, the thermal load record, the util_avg switch
on the PELT type (with the uclamped value on the cfs path), then cpu
util_est_enqueued. -/
def handle_rq_pelt_event (opts : SaOpts) (e : RqPeltEvent) : Output :=
  let r1 := if opts.load_avg_cpu ∧ e.load_avg ≠ SENTINEL then
    [TraceRecord.cpuLoadAvg e.ts e.cpu e.load_avg] else []
  let r2 := if opts.runnable_avg_cpu ∧ e.runnable_avg ≠ SENTINEL then
    [TraceRecord.cpuRunnableAvg e.ts e.cpu e.runnable_avg] else []
  let r3 := if e.type = PeltType.thermal ∧ opts.load_avg_thermal then
    [TraceRecord.cpuLoadAvgThermal e.ts e.cpu e.load_avg] else []
  let r4 : List TraceRecord :=
    if e.util_avg ≠ SENTINEL then
      match e.type with
      | .cfs =>
        if opts.util_avg_cpu then
          TraceRecord.cpuUtilAvg e.ts e.cpu e.util_avg ::
            (if e.uclamp_min ≠ SENTINEL ∧ e.uclamp_max ≠ SENTINEL then
              [TraceRecord.cpuUclampedAvg e.ts e.cpu
                (clamp e.util_avg e.uclamp_min e.uclamp_max)]
            else [])
        else []
      | .rt =>
        if opts.util_avg_rt then [TraceRecord.cpuUtilAvgRt e.ts e.cpu e.util_avg] else []
      | .dl =>
        if opts.util_avg_dl then [TraceRecord.cpuUtilAvgDl e.ts e.cpu e.util_avg] else []
      | .irq =>
        if opts.util_avg_irq then [TraceRecord.cpuUtilAvgIrq e.ts e.cpu e.util_avg] else []
      | _ => []
    else []
  let logs : List LogMsg :=
    if e.util_avg ≠ SENTINEL then
      match e.type with
      | .cfs => []
      | .rt => []
      | .dl => []
      | .irq => []
      | t => [LogMsg.unexpectedPeltType t]
    else []
  let r5 := if opts.util_est_cpu ∧ e.util_est_enqueued ≠ SENTINEL then
    [TraceRecord.cpuUtilEstEnqueued e.ts e.cpu e.util_est_enqueued] else []
  ⟨r1 ++ r2 ++ r3 ++ r4 ++ r5, logs, 0⟩

/-- `handle_task_pelt_event`: the ignore filter, then load_avg,
runnable_avg, util_avg (with the uclamped value), then the util_est pair
(ewma emitted alongside enqueued, gated only by enqueued's sentinel). -/
def handle_task_pelt_event (opts : SaOpts) (e : TaskPeltEvent) : Output :=
  if ignore_pid_comm opts e.pid e.comm then ⟨[], [], 0⟩
  else
    let r1 := if opts.load_avg_task ∧ e.load_avg ≠ SENTINEL then
      [TraceRecord.taskLoadAvg e.ts e.comm e.pid e.load_avg] else []
    let r2 := if opts.runnable_avg_task ∧ e.runnable_avg ≠ SENTINEL then
      [TraceRecord.taskRunnableAvg e.ts e.comm e.pid e.runnable_avg] else []
    let r3 := if opts.util_avg_task ∧ e.util_avg ≠ SENTINEL then
      TraceRecord.taskUtilAvg e.ts e.comm e.pid e.util_avg ::
        (if e.uclamp_min ≠ SENTINEL ∧ e.uclamp_max ≠ SENTINEL then
          [TraceRecord.taskUclampedAvg e.ts e.comm e.pid
            (clamp e.util_avg e.uclamp_min e.uclamp_max)]
        else [])
      else []
    let r4 := if opts.util_est_task ∧ e.util_est_enqueued ≠ SENTINEL then
      [TraceRecord.taskUtilEstEnqueued e.ts e.comm e.pid e.util_est_enqueued,
       TraceRecord.taskUtilEstEwma e.ts e.comm e.pid e.util_est_ewma] else []
    ⟨r1 ++ r2 ++ r3 ++ r4, [], 0⟩

/-- `handle_sched_switch_event`: the ignore filter, then for a task that
stopped running, zero-reset records: load_avg (gated by `util_avg_task`
in the source), util_avg and the uclamped value (gated by
`util_avg_task`), and the util_est pair (gated by `util_est_task`). -/
def handle_sched_switch_event (opts : SaOpts) (e : SchedSwitchEvent) : Output :=
  if ignore_pid_comm opts e.pid e.comm then ⟨[], [], 0⟩
  else
    let r1 := if !e.running ∧ opts.util_avg_task then
      [TraceRecord.taskLoadAvg e.ts e.comm e.pid 0] else []
    let r2 := if !e.running ∧ opts.util_avg_task then
      [TraceRecord.taskUtilAvg e.ts e.comm e.pid 0,
       TraceRecord.taskUclampedAvg e.ts e.comm e.pid 0] else []
    let r3 := if !e.running ∧ opts.util_est_task then
      [TraceRecord.taskUtilEstEnqueued e.ts e.comm e.pid 0,
       TraceRecord.taskUtilEstEwma e.ts e.comm e.pid 0] else []
    ⟨r1 ++ r2 ++ r3, [], 0⟩

/-- The phase-name table of `handle_lb_event` (`"unknown"` when the value
matches no case of the C `switch`). -/
def lb_phase_name : LbPhase → String
  | .nohz_idle_balance => "_nohz_idle_balance()"
  | .run_rebalance_domains => "run_rebalance_domains()"
  | .rebalance_domains => "rebalance_domains()"
  | .balance_fair => "balance_fair()"
  | .pick_next_task_fair => "pick_next_task_fair()"
  | .newidle_balance => "newidle_balance()"
  | .load_balance => "load_balance()"
  | .other _ => "unknown"

/-- `handle_lb_event`, emitting records in source order: the sd-stats
snapshot (inside the `rebalance_domains` case, on entry only), then
overloaded / overutilized / misfit when not sentinel, then the span
start (with the phase name) or the span end. -/
def handle_lb_event (e : LbEvent) : Output :=
  let r0 := if e.phase = LbPhase.rebalance_domains ∧ e.entry then
    [TraceRecord.lbSdStats e.ts e.sd_stats] else []
  let r1 := if e.overloaded ≠ -1 then [TraceRecord.lbOverloaded e.ts e.overloaded] else []
  let r2 := if e.overutilized ≠ -1 then [TraceRecord.lbOverutilized e.ts e.overutilized] else []
  let r3 := if e.misfit_task_load ≠ -1 then
    [TraceRecord.lbMisfit e.ts e.lb_cpu e.misfit_task_load] else []
  let r4 := if e.entry then
    [TraceRecord.lbEntry e.ts e.this_cpu e.lb_cpu (lb_phase_name e.phase)]
    else [TraceRecord.lbExit e.ts e.this_cpu e.lb_cpu]
  ⟨r0 ++ r1 ++ r2 ++ r3 ++ r4, [], 0⟩

/-- The result of one `POLL_EVENT_RB` expansion: the value `err` holds
after the macro, and whether the polling-error diagnostic was printed. -/
structure PollOutcome where
  err : Int
  logged : Bool
deriving DecidableEq

/-- `POLL_EVENT_RB` as a function of the `ring_buffer__poll` result `r`:
`-EINTR` is rewritten to `0` (silently); any other negative result is
logged; a non-negative result passes through. In every case control
falls out of the macro into the rest of the loop body. -/
def poll_event_rb (r : Int) : PollOutcome :=
  if r = -EINTR then ⟨0, false⟩
  else if r < 0 then ⟨r, true⟩
  else ⟨r, false⟩

/-- The `while (!exiting)` loop of `EVENT_THREAD_FN`, driven by the
sequence of values the worker reads from `exiting` at each loop head and
the sequence of `ring_buffer__poll` results: the list of poll outcomes
the worker produces before returning. The loop body never breaks out of
the loop; only an `exiting` read of `true` stops it. -/
def worker_run : List Bool → List Int → List PollOutcome
  | e :: es, p :: ps => if e then [] else poll_event_rb p :: worker_run es ps
  | _, _ => []

/-- The outcomes of the external calls `main` makes, in program order:
`argp_parse`, `sched_analyzer_bpf__open` (null check),
`sched_analyzer_bpf__load`, `sched_analyzer_bpf__attach`, the eight
`pthread_create` calls (indices 0..7 in source order: rq_pelt,
task_pelt, rq_nr_running, sched_switch, freq_idle, softirq, lb, ipi) and
the eight `pthread_join` calls. -/
structure MainEnv where
  argp_err : Int
  open_ok : Bool
  load_err : Int
  attach_err : Int
  create_err : Nat → Int
  join_err : Nat → Int

/-- Index of the first failing `pthread_create`, if any (threads are
created in order and the first failure jumps to `cleanup`). -/
def firstCreateFail (env : MainEnv) : Option Nat :=
  (List.range 8).find? fun i => env.create_err i != 0

/-- The value of `ipi_err` (the last event's `event##_err` variable) when
control reaches `cleanup`: `-1` from `INIT_EVENT_THREAD` if thread
creation for the ipi event was never attempted, its `pthread_create`
result otherwise. `reached` says whether `main` got past attach. -/
def ipi_err_at_cleanup (env : MainEnv) (reached : Bool) : Int :=
  if reached then
    match firstCreateFail env with
    | none => env.create_err 7
    | some k => if k = 7 then env.create_err 7 else if k < 7 then -1 else env.create_err 7
  else -1

/-- The process exit status computed by `main`: early returns for
`argp_parse` failure and a null skeleton; otherwise control reaches
`cleanup`, where each `DESTROY_EVENT_THREAD` reassigns
`err = event##_err ? 0 : pthread_join(...)`, so the value returned is
derived from the *last* (ipi) destroy, and the final statement is
`return err < 0 ? -err : 0`. -/
def main_exit (env : MainEnv) : Int :=
  if env.argp_err ≠ 0 then env.argp_err
  else if env.open_ok = false then 1
  else
    let reached := env.load_err = 0 ∧ env.attach_err = 0
    let ev7 := ipi_err_at_cleanup env (if reached then true else false)
    let final := if ev7 ≠ 0 then 0 else env.join_err 7
    if final < 0 then -final else 0

/-- The observable startup steps of `main`, in program order. -/
inductive StartupAction where
  | parseArgs
  | initKallsyms
  | initPerfetto
  | installSignals
  | openSkel
  | configureSkel
  | loadSkel
  | attachSkel
  | spawnWorker (i : Nat)
  | startTrace
deriving DecidableEq

/-- Indices of the `pthread_create` calls actually made: all eight, or
the prefix up to and including the first failing one. -/
def spawnAttempts (env : MainEnv) : List Nat :=
  match firstCreateFail env with
  | none => List.range 8
  | some k => List.range (k + 1)

/-- The sequence of startup steps `main` performs, as a function of the
configuration and the outcomes of its external calls: `argp_parse`, then
(only when the ipi capability is on) `parse_kallsyms`, then
`init_perfetto`, the signal handlers, skeleton open / configure / load /
attach, the worker `pthread_create` calls, and `start_perfetto_trace`.
A fatal failure truncates the sequence at the point the source jumps to
`cleanup` (or returns). -/
def main_startup_actions (opts : SaOpts) (env : MainEnv) : List StartupAction :=
  StartupAction.parseArgs ::
    (if env.argp_err ≠ 0 then [] else
      (if opts.ipi then [StartupAction.initKallsyms] else []) ++
      [StartupAction.initPerfetto, StartupAction.installSignals, StartupAction.openSkel] ++
      (if env.open_ok = false then [] else
        [StartupAction.configureSkel, StartupAction.loadSkel] ++
        (if env.load_err ≠ 0 then [] else
          [StartupAction.attachSkel] ++
          (if env.attach_err ≠ 0 then [] else
            (spawnAttempts env).map StartupAction.spawnWorker ++
            (if (List.range 8).all (fun i => env.create_err i == 0) then
              [StartupAction.startTrace] else [])))))

/-! Concrete configurations and events used to exercise the model. -/

/-- A configuration with every capability off and empty filters. -/
def allOff : SaOpts :=
  ⟨false, false, false, false, false, false, false, false,
   false, false, false, false, false, false, false, false, [], []⟩

/-- Only the thermal load capability on. -/
def optsThermal : SaOpts := { allOff with load_avg_thermal := true }

/-- A thermal rq event whose every numeric field is the sentinel. -/
def evThermal : RqPeltEvent :=
  ⟨100, 0, PeltType.thermal, SENTINEL, SENTINEL, SENTINEL, SENTINEL, SENTINEL, SENTINEL⟩

/-- Only the task util_est capability on. -/
def optsUtilEst : SaOpts := { allOff with util_est_task := true }

/-- A task event with `util_est_enqueued = 3` but `util_est_ewma` sentinel. -/
def evEwma : TaskPeltEvent :=
  ⟨5, 7, ['a'], SENTINEL, SENTINEL, SENTINEL, SENTINEL, SENTINEL, 3, SENTINEL⟩

/-- Only the cpu util_avg capability on. -/
def optsUtilCpu : SaOpts := { allOff with util_avg_cpu := true }

/-- A cfs rq event with `util_avg = 0` and the inverted clamp range `[5, 2]`. -/
def evInvClamp : RqPeltEvent :=
  ⟨1, 0, PeltType.cfs, SENTINEL, SENTINEL, 0, 5, 2, SENTINEL⟩

/-- cpu and task util_avg capabilities on. -/
def optsUtilBoth : SaOpts := { allOff with util_avg_cpu := true, util_avg_task := true }

/-- A cfs rq event with `util_avg = 3` inside the range `[1, 7]`. -/
def evCfsInRange : RqPeltEvent :=
  ⟨1, 0, PeltType.cfs, SENTINEL, SENTINEL, 3, 1, 7, SENTINEL⟩

/-- A task event with `util_avg = 3` inside the range `[1, 7]`. -/
def evTaskInRange : TaskPeltEvent :=
  ⟨1, 2, ['a'], SENTINEL, SENTINEL, 3, 1, 7, SENTINEL, SENTINEL⟩

/-! ## C3: the derived clamped value -/

/-- C3. The claim fails as stated: it quantifies over all
`uclamp_min`, `uclamp_max` different from the sentinel, but on the
inverted range `uclamp_min = 5 > 2 = uclamp_max` the source's `clamp`
macro yields `5` on `util_avg = 0`, which differs from
`min (max 0 5) 2 = 2` and does not satisfy `clamped ≤ uclamp_max`.
The cfs path emits exactly this value. -/
theorem claim_C3_counterexample :
    (handle_rq_pelt_event optsUtilCpu evInvClamp).records =
      [TraceRecord.cpuUtilAvg 1 0 0, TraceRecord.cpuUclampedAvg 1 0 5] ∧
    clamp 0 5 2 = 5 ∧ min (max 0 5) 2 = 2 ∧ ¬ clamp 0 5 2 ≤ 2 := by
  decide

/-- C3 (amended): under the additional hypothesis
`uclamp_min ≤ uclamp_max`, the `clamp` macro agrees with
`min (max val lo) hi`, its result lies in `[lo, hi]`, and it is the
identity on values already in range; both the cfs path of
`handle_rq_pelt_event` and the task path of `handle_task_pelt_event`
emit exactly `clamp util_avg uclamp_min uclamp_max` as the clamped
record when their gates hold. -/
theorem claim_C3_amended (opts : SaOpts) (e : RqPeltEvent) (t : TaskPeltEvent)
    (val lo hi : Nat) (h : lo ≤ hi) :
    (clamp val lo hi = min (max val lo) hi ∧
     lo ≤ clamp val lo hi ∧ clamp val lo hi ≤ hi ∧
     (lo ≤ val → val ≤ hi → clamp val lo hi = val)) ∧
    (opts.util_avg_cpu = true → e.type = PeltType.cfs → e.util_avg ≠ SENTINEL →
      e.uclamp_min ≠ SENTINEL → e.uclamp_max ≠ SENTINEL →
      TraceRecord.cpuUclampedAvg e.ts e.cpu (clamp e.util_avg e.uclamp_min e.uclamp_max) ∈
        (handle_rq_pelt_event opts e).records) ∧
    (opts.util_avg_task = true → ignore_pid_comm opts t.pid t.comm = false →
      t.util_avg ≠ SENTINEL → t.uclamp_min ≠ SENTINEL → t.uclamp_max ≠ SENTINEL →
      TraceRecord.taskUclampedAvg t.ts t.comm t.pid (clamp t.util_avg t.uclamp_min t.uclamp_max) ∈
        (handle_task_pelt_event opts t).records) := by
  refine ⟨⟨?_, ?_, ?_, ?_⟩, ?_, ?_⟩
  · simp only [clamp]; split_ifs <;> omega
  · simp only [clamp]; split_ifs <;> omega
  · simp only [clamp]; split_ifs <;> omega
  · intro h1 h2; simp only [clamp]; split_ifs <;> omega
  · intro h1 h2 h3 h4 h5
    simp [handle_rq_pelt_event, h1, h2, h3, h4, h5]
  · intro h1 h2 h3 h4 h5
    simp [handle_task_pelt_event, h1, h2, h3, h4, h5]

/-- C3 witness: the amended statement applied to concrete in-range data. -/
theorem claim_C3_witness :
    clamp 3 1 7 = min (max 3 1) 7 ∧ 1 ≤ clamp 3 1 7 ∧ clamp 3 1 7 ≤ 7 ∧
    clamp 3 1 7 = 3 ∧
    TraceRecord.cpuUclampedAvg 1 0 (clamp 3 1 7) ∈
      (handle_rq_pelt_event optsUtilBoth evCfsInRange).records ∧
    TraceRecord.taskUclampedAvg 1 ['a'] 2 (clamp 3 1 7) ∈
      (handle_task_pelt_event optsUtilBoth evTaskInRange).records := by
  obtain ⟨⟨h1, h2, h3, h4⟩, h5, h6⟩ :=
    claim_C3_amended optsUtilBoth evCfsInRange evTaskInRange 3 1 7 (by decide)
  refine ⟨h1, h2, h3, h4 (by decide) (by decide), ?_, ?_⟩
  · exact h5 rfl rfl (by decide) (by decide) (by decide)
  · exact h6 rfl (by decide) (by decide) (by decide) (by decide)

/-! ## C4: the ignore decision -/

/-- C4. `ignore_pid_comm` returns `false` whenever both filter lists are
empty; returns `false` when the pid is allow-listed or the comm contains
an allow-listed substring; and returns `true` otherwise (some filter
nonempty, no pid match, no substring match). -/
theorem claim_C4 (opts : SaOpts) (pid : Int) (comm : List Char) :
    (opts.pid = [] → opts.comm = [] → ignore_pid_comm opts pid comm = false) ∧
    (pid ∈ opts.pid → ignore_pid_comm opts pid comm = false) ∧
    ((∃ s ∈ opts.comm, strstr comm s = true) → ignore_pid_comm opts pid comm = false) ∧
    ((opts.pid ≠ [] ∨ opts.comm ≠ []) → pid ∉ opts.pid →
      (∀ s ∈ opts.comm, strstr comm s = false) → ignore_pid_comm opts pid comm = true) := by
  refine ⟨?_, ?_, ?_, ?_⟩
  · intro h1 h2; simp [ignore_pid_comm, h1, h2]
  · intro h
    simp only [ignore_pid_comm]
    split_ifs with h1 h2 h3 <;> simp_all
  · rintro ⟨s, hs, hstr⟩
    simp only [ignore_pid_comm]
    split_ifs with h1 h2 h3 <;> try rfl
    exact absurd (List.any_eq_true.mpr ⟨s, hs, hstr⟩) (by simpa using h3)
  · intro hne hpid hsub
    simp only [ignore_pid_comm]
    split_ifs with h1 h2 h3 <;> try rfl
    · simp_all
    · simp_all
    · rcases List.any_eq_true.mp h3 with ⟨s, hs, hsb⟩
      exact absurd hsb (by simp [hsub s hs])

/-- C4 witness: empty filters collect everything; the spec's own example
`"kworker/0:1"` is kept by the substring `"kworker"` even though its pid
is not allow-listed; an unmatched task is ignored. -/
theorem claim_C4_witness :
    ignore_pid_comm allOff 5 ['a'] = false ∧
    ignore_pid_comm { allOff with pid := [42], comm := [['k', 'w']] } 99
      ['k', 'w', 'o', 'r', 'k', 'e', 'r'] = false ∧
    ignore_pid_comm { allOff with pid := [42], comm := [['k', 'w']] } 99
      ['b', 'a', 's', 'h'] = true := by
  refine ⟨?_, ?_, ?_⟩
  · exact (claim_C4 allOff 5 ['a']).1 rfl rfl
  · exact (claim_C4 _ 99 _).2.2.1 ⟨['k', 'w'], by decide, by decide⟩
  · exact (claim_C4 _ 99 _).2.2.2 (by decide) (by decide) (by decide)

/-! ## C2: zero-reset records on a sched_switch out -/

/-- Only the task load_avg capability on. -/
def optsLoadTask : SaOpts := { allOff with load_avg_task := true }

/-- A non-running sched_switch event for an unfiltered task. -/
def evSwitchOut : SchedSwitchEvent := ⟨9, 42, ['x'], false⟩

/-- task util_avg and util_est capabilities on. -/
def optsTaskUtil : SaOpts := { allOff with util_avg_task := true, util_est_task := true }

/-- C2. The claim fails as stated: it says the zero-valued load_avg
record is gated by the task load_avg capability, but the source gates it
on `util_avg_task` (`if (!e->running && sa_opts.util_avg_task)` before
`trace_task_load_avg(..., 0)`). With `load_avg_task` on and
`util_avg_task` off, a non-running unfiltered event produces no record
at all. -/
theorem claim_C2_counterexample :
    optsLoadTask.load_avg_task = true ∧
    ignore_pid_comm optsLoadTask evSwitchOut.pid evSwitchOut.comm = false ∧
    evSwitchOut.running = false ∧
    (handle_sched_switch_event optsLoadTask evSwitchOut).records = [] := by
  decide

/-- C2 (amended): for an unfiltered non-running sched_switch event the
handler emits exactly one zero-valued record per signal, each carrying
the event's timestamp, where load_avg, util_avg and the clamped value
are all gated by the task util_avg capability (load_avg is *not* gated
by the task load_avg capability) and the util_est pair is gated by the
task util_est capability; nothing is emitted for a disabled gate. -/
theorem claim_C2_amended (opts : SaOpts) (e : SchedSwitchEvent)
    (hig : ignore_pid_comm opts e.pid e.comm = false) (hrun : e.running = false) :
    (handle_sched_switch_event opts e).records =
      (if opts.util_avg_task then
        [TraceRecord.taskLoadAvg e.ts e.comm e.pid 0,
         TraceRecord.taskUtilAvg e.ts e.comm e.pid 0,
         TraceRecord.taskUclampedAvg e.ts e.comm e.pid 0] else []) ++
      (if opts.util_est_task then
        [TraceRecord.taskUtilEstEnqueued e.ts e.comm e.pid 0,
         TraceRecord.taskUtilEstEwma e.ts e.comm e.pid 0] else []) := by
  simp only [handle_sched_switch_event, hig, hrun, Bool.false_eq_true, if_false,
    Bool.not_false]
  split_ifs <;> simp_all

/-- C2 witness: with both task capabilities on, the five zero-valued
records appear, in order, with the event's timestamp. -/
theorem claim_C2_witness :
    (handle_sched_switch_event optsTaskUtil evSwitchOut).records =
      [TraceRecord.taskLoadAvg 9 ['x'] 42 0,
       TraceRecord.taskUtilAvg 9 ['x'] 42 0,
       TraceRecord.taskUclampedAvg 9 ['x'] 42 0,
       TraceRecord.taskUtilEstEnqueued 9 ['x'] 42 0,
       TraceRecord.taskUtilEstEwma 9 ['x'] 42 0] := by
  have h := claim_C2_amended optsTaskUtil evSwitchOut (by decide) (by decide)
  simpa using h

/-! ## C5: load-balance span records -/

/-- C5. On entry in the `rebalance_domains` phase the handler emits both
the span-start record (keyed by this_cpu, lb_cpu and the phase name) and
the sd-stats snapshot; on exit it emits exactly one span-end record
(keyed by this_cpu and lb_cpu), no snapshot and no span-start, whatever
the phase. -/
theorem claim_C5 (e : LbEvent) :
    (e.entry = true → e.phase = LbPhase.rebalance_domains →
      TraceRecord.lbEntry e.ts e.this_cpu e.lb_cpu "rebalance_domains()" ∈
        (handle_lb_event e).records ∧
      TraceRecord.lbSdStats e.ts e.sd_stats ∈ (handle_lb_event e).records) ∧
    (e.entry = false →
      countKind (handle_lb_event e).records RecKind.lbExit = 1 ∧
      TraceRecord.lbExit e.ts e.this_cpu e.lb_cpu ∈ (handle_lb_event e).records ∧
      hasKind (handle_lb_event e).records RecKind.lbSdStats = false ∧
      hasKind (handle_lb_event e).records RecKind.lbEntry = false) := by
  constructor
  · intro hentry hphase
    constructor
    · simp [handle_lb_event, hentry, hphase, lb_phase_name]
    · simp [handle_lb_event, hentry, hphase]
  · intro hentry
    refine ⟨?_, ?_, ?_, ?_⟩
    · simp only [handle_lb_event, countKind, hentry, Bool.false_eq_true, and_false,
        if_false, List.filter_append]
      split_ifs <;> simp [TraceRecord.kind]
    · simp [handle_lb_event, hentry]
    · simp only [handle_lb_event, hasKind, hentry, Bool.false_eq_true, and_false,
        if_false, List.any_append]
      split_ifs <;> simp [TraceRecord.kind]
    · simp only [handle_lb_event, hasKind, hentry, Bool.false_eq_true, and_false,
        if_false, List.any_append]
      split_ifs <;> simp [TraceRecord.kind]

/-- A rebalance_domains entry event. -/
def evLbEntry : LbEvent := ⟨50, LbPhase.rebalance_domains, true, 1, 2, -1, -1, -1, 77⟩

/-- The matching exit event. -/
def evLbExit : LbEvent := ⟨60, LbPhase.rebalance_domains, false, 1, 2, -1, -1, -1, 77⟩

/-- C5 witness: both halves of the claim at a concrete entry / exit pair. -/
theorem claim_C5_witness :
    (TraceRecord.lbEntry 50 1 2 "rebalance_domains()" ∈ (handle_lb_event evLbEntry).records ∧
     TraceRecord.lbSdStats 50 77 ∈ (handle_lb_event evLbEntry).records) ∧
    (countKind (handle_lb_event evLbExit).records RecKind.lbExit = 1 ∧
     TraceRecord.lbExit 60 1 2 ∈ (handle_lb_event evLbExit).records ∧
     hasKind (handle_lb_event evLbExit).records RecKind.lbSdStats = false ∧
     hasKind (handle_lb_event evLbExit).records RecKind.lbEntry = false) := by
  exact ⟨(claim_C5 evLbEntry).1 rfl rfl, (claim_C5 evLbExit).2 rfl⟩

/-! ## C8: poll errors are not fatal -/

/-- C8. A poll returning a negative non-EINTR result is logged, the
worker still performs its iteration and continues to the next loop head
(only an `exiting` read of `true` stops the loop), and an EINTR-interrupted
poll produces exactly the outcome of a successful poll that consumed no
records. -/
theorem claim_C8 (r : Int) (es : List Bool) (ps : List Int)
    (hneg : r < 0) (hni : r ≠ -EINTR) :
    (poll_event_rb r).logged = true ∧
    worker_run (false :: es) (r :: ps) = poll_event_rb r :: worker_run es ps ∧
    worker_run (true :: es) (r :: ps) = [] ∧
    poll_event_rb (-EINTR) = poll_event_rb 0 := by
  refine ⟨?_, ?_, ?_, ?_⟩
  · simp [poll_event_rb, hni, hneg]
  · simp [worker_run]
  · simp [worker_run]
  · decide

/-- C8 witness: the statement at `r = -5` and a one-iteration schedule. -/
theorem claim_C8_witness :
    (poll_event_rb (-5)).logged = true ∧
    worker_run [false, true] [-5, 7] = poll_event_rb (-5) :: worker_run [true] [7] ∧
    worker_run [true, true] [-5, 7] = [] ∧
    poll_event_rb (-EINTR) = poll_event_rb 0 := by
  exact claim_C8 (-5) [true] [7] (by decide) (by decide)

/-! ## C10: unknown PELT subtype -/

/-- C10. For a rq event whose PELT type is none of the five named
constants and whose util_avg is not sentinel, the handler logs the
unexpected type, emits no util_avg (or clamped) record, still emits the
load_avg, runnable_avg and util_est_enqueued records under their own
capability-and-sentinel gates, and returns 0. -/
theorem claim_C10 (opts : SaOpts) (e : RqPeltEvent) (n : Nat)
    (ht : e.type = PeltType.other n) (hu : e.util_avg ≠ SENTINEL) :
    (handle_rq_pelt_event opts e).records =
      (if opts.load_avg_cpu ∧ e.load_avg ≠ SENTINEL then
        [TraceRecord.cpuLoadAvg e.ts e.cpu e.load_avg] else []) ++
      (if opts.runnable_avg_cpu ∧ e.runnable_avg ≠ SENTINEL then
        [TraceRecord.cpuRunnableAvg e.ts e.cpu e.runnable_avg] else []) ++
      (if opts.util_est_cpu ∧ e.util_est_enqueued ≠ SENTINEL then
        [TraceRecord.cpuUtilEstEnqueued e.ts e.cpu e.util_est_enqueued] else []) ∧
    (handle_rq_pelt_event opts e).logs = [LogMsg.unexpectedPeltType (PeltType.other n)] ∧
    (handle_rq_pelt_event opts e).ret = 0 := by
  refine ⟨?_, ?_, ?_⟩
  · simp [handle_rq_pelt_event, ht, hu]
  · simp [handle_rq_pelt_event, ht, hu]
  · simp [handle_rq_pelt_event]

/-- cpu load_avg, runnable_avg and util_est capabilities on. -/
def optsCpuAll : SaOpts :=
  { allOff with load_avg_cpu := true, runnable_avg_cpu := true, util_est_cpu := true }

/-- An rq event with an unrecognized PELT type value and live signals. -/
def evUnknownType : RqPeltEvent := ⟨8, 3, PeltType.other 9, 10, 20, 30, 0, 0, 40⟩

/-- C10 witness: the concrete unknown-type event keeps its load_avg,
runnable_avg and util_est records, logs the type, and returns 0. -/
theorem claim_C10_witness :
    (handle_rq_pelt_event optsCpuAll evUnknownType).records =
      [TraceRecord.cpuLoadAvg 8 3 10, TraceRecord.cpuRunnableAvg 8 3 20,
       TraceRecord.cpuUtilEstEnqueued 8 3 40] ∧
    (handle_rq_pelt_event optsCpuAll evUnknownType).logs =
      [LogMsg.unexpectedPeltType (PeltType.other 9)] ∧
    (handle_rq_pelt_event optsCpuAll evUnknownType).ret = 0 := by
  have h := claim_C10 optsCpuAll evUnknownType 9 rfl (by decide)
  simpa using h

/-! ## C1: sentinel fields never produce records -/

/-- C1. The claim fails as stated, at both places it singles out: a
thermal rq event whose `load_avg` is the sentinel still produces a
thermal-load record carrying the sentinel (`handle_rq_pelt_event` has no
sentinel check on the thermal path), and a task event whose
`util_est_ewma` is the sentinel still produces a util_est_ewma record
carrying the sentinel whenever `util_est_enqueued` is live. -/
theorem claim_C1_counterexample :
    evThermal.load_avg = SENTINEL ∧
    (handle_rq_pelt_event optsThermal evThermal).records =
      [TraceRecord.cpuLoadAvgThermal 100 0 SENTINEL] ∧
    evEwma.util_est_ewma = SENTINEL ∧
    (handle_task_pelt_event optsUtilEst evEwma).records =
      [TraceRecord.taskUtilEstEnqueued 5 ['a'] 7 3,
       TraceRecord.taskUtilEstEwma 5 ['a'] 7 SENTINEL] := by
  decide

/-- No record of category `k` is in `l` iff every record has another kind. -/
theorem hasKind_false_iff (l : List TraceRecord) (k : RecKind) :
    hasKind l k = false ↔ ∀ r ∈ l, r.kind ≠ k := by
  simp [hasKind]

set_option maxHeartbeats 1000000 in
/-- Characterization of the records `handle_rq_pelt_event` emits. -/
theorem mem_rq_pelt_iff (opts : SaOpts) (e : RqPeltEvent) (r : TraceRecord) :
    r ∈ (handle_rq_pelt_event opts e).records ↔
      (opts.load_avg_cpu = true ∧ e.load_avg ≠ SENTINEL ∧
        r = TraceRecord.cpuLoadAvg e.ts e.cpu e.load_avg) ∨
      (opts.runnable_avg_cpu = true ∧ e.runnable_avg ≠ SENTINEL ∧
        r = TraceRecord.cpuRunnableAvg e.ts e.cpu e.runnable_avg) ∨
      (e.type = PeltType.thermal ∧ opts.load_avg_thermal = true ∧
        r = TraceRecord.cpuLoadAvgThermal e.ts e.cpu e.load_avg) ∨
      (e.util_avg ≠ SENTINEL ∧ e.type = PeltType.cfs ∧ opts.util_avg_cpu = true ∧
        r = TraceRecord.cpuUtilAvg e.ts e.cpu e.util_avg) ∨
      (e.util_avg ≠ SENTINEL ∧ e.type = PeltType.cfs ∧ opts.util_avg_cpu = true ∧
        e.uclamp_min ≠ SENTINEL ∧ e.uclamp_max ≠ SENTINEL ∧
        r = TraceRecord.cpuUclampedAvg e.ts e.cpu (clamp e.util_avg e.uclamp_min e.uclamp_max)) ∨
      (e.util_avg ≠ SENTINEL ∧ e.type = PeltType.rt ∧ opts.util_avg_rt = true ∧
        r = TraceRecord.cpuUtilAvgRt e.ts e.cpu e.util_avg) ∨
      (e.util_avg ≠ SENTINEL ∧ e.type = PeltType.dl ∧ opts.util_avg_dl = true ∧
        r = TraceRecord.cpuUtilAvgDl e.ts e.cpu e.util_avg) ∨
      (e.util_avg ≠ SENTINEL ∧ e.type = PeltType.irq ∧ opts.util_avg_irq = true ∧
        r = TraceRecord.cpuUtilAvgIrq e.ts e.cpu e.util_avg) ∨
      (opts.util_est_cpu = true ∧ e.util_est_enqueued ≠ SENTINEL ∧
        r = TraceRecord.cpuUtilEstEnqueued e.ts e.cpu e.util_est_enqueued) := by
  obtain ⟨ts, cpu, ty, la, ra, ua, umin, umax, ue⟩ := e
  cases ty <;> simp [handle_rq_pelt_event] <;> tauto

set_option maxHeartbeats 1000000 in
/-- Characterization of the records `handle_task_pelt_event` emits. -/
theorem mem_task_pelt_iff (opts : SaOpts) (t : TaskPeltEvent) (r : TraceRecord) :
    r ∈ (handle_task_pelt_event opts t).records ↔
      ignore_pid_comm opts t.pid t.comm = false ∧
      ((opts.load_avg_task = true ∧ t.load_avg ≠ SENTINEL ∧
         r = TraceRecord.taskLoadAvg t.ts t.comm t.pid t.load_avg) ∨
       (opts.runnable_avg_task = true ∧ t.runnable_avg ≠ SENTINEL ∧
         r = TraceRecord.taskRunnableAvg t.ts t.comm t.pid t.runnable_avg) ∨
       (opts.util_avg_task = true ∧ t.util_avg ≠ SENTINEL ∧
         r = TraceRecord.taskUtilAvg t.ts t.comm t.pid t.util_avg) ∨
       (opts.util_avg_task = true ∧ t.util_avg ≠ SENTINEL ∧
         t.uclamp_min ≠ SENTINEL ∧ t.uclamp_max ≠ SENTINEL ∧
         r = TraceRecord.taskUclampedAvg t.ts t.comm t.pid
               (clamp t.util_avg t.uclamp_min t.uclamp_max)) ∨
       (opts.util_est_task = true ∧ t.util_est_enqueued ≠ SENTINEL ∧
         r = TraceRecord.taskUtilEstEnqueued t.ts t.comm t.pid t.util_est_enqueued) ∨
       (opts.util_est_task = true ∧ t.util_est_enqueued ≠ SENTINEL ∧
         r = TraceRecord.taskUtilEstEwma t.ts t.comm t.pid t.util_est_ewma)) := by
  by_cases hig : ignore_pid_comm opts t.pid t.comm = false
  · simp only [handle_task_pelt_event, hig, if_false, Bool.false_eq_true]
    simp <;> tauto
  · have hig2 : ignore_pid_comm opts t.pid t.comm = true := by
      revert hig; cases ignore_pid_comm opts t.pid t.comm <;> simp
    simp [handle_task_pelt_event, hig2, hig]

set_option maxHeartbeats 3200000 in
/-- C1 (amended): every numeric field with its own sentinel gate emits
no record of its category when the field is sentinel — cpu load_avg,
runnable_avg, util_avg of all types (with the clamped value), and
util_est_enqueued; task load_avg, runnable_avg, util_avg (with the
clamped value), and util_est_enqueued (which also suppresses ewma);
lb overloaded, overutilized and misfit — with exactly two exceptions
forced by the source: the thermal-load record is emitted from `load_avg`
whenever the type is thermal and the capability is on, regardless of
sentinel, and the task util_est_ewma record is emitted whenever
`util_est_enqueued` is live, regardless of the ewma value. -/
theorem claim_C1_amended (opts : SaOpts) (e : RqPeltEvent) (t : TaskPeltEvent) (l : LbEvent) :
    (e.load_avg = SENTINEL →
      hasKind (handle_rq_pelt_event opts e).records RecKind.cpuLoadAvg = false) ∧
    (e.runnable_avg = SENTINEL →
      hasKind (handle_rq_pelt_event opts e).records RecKind.cpuRunnableAvg = false) ∧
    (e.util_avg = SENTINEL →
      hasKind (handle_rq_pelt_event opts e).records RecKind.cpuUtilAvg = false ∧
      hasKind (handle_rq_pelt_event opts e).records RecKind.cpuUtilAvgRt = false ∧
      hasKind (handle_rq_pelt_event opts e).records RecKind.cpuUtilAvgDl = false ∧
      hasKind (handle_rq_pelt_event opts e).records RecKind.cpuUtilAvgIrq = false ∧
      hasKind (handle_rq_pelt_event opts e).records RecKind.cpuUclampedAvg = false) ∧
    (e.uclamp_min = SENTINEL ∨ e.uclamp_max = SENTINEL →
      hasKind (handle_rq_pelt_event opts e).records RecKind.cpuUclampedAvg = false) ∧
    (e.util_est_enqueued = SENTINEL →
      hasKind (handle_rq_pelt_event opts e).records RecKind.cpuUtilEstEnqueued = false) ∧
    (e.type = PeltType.thermal → opts.load_avg_thermal = true →
      TraceRecord.cpuLoadAvgThermal e.ts e.cpu e.load_avg ∈
        (handle_rq_pelt_event opts e).records) ∧
    (t.load_avg = SENTINEL →
      hasKind (handle_task_pelt_event opts t).records RecKind.taskLoadAvg = false) ∧
    (t.runnable_avg = SENTINEL →
      hasKind (handle_task_pelt_event opts t).records RecKind.taskRunnableAvg = false) ∧
    (t.util_avg = SENTINEL →
      hasKind (handle_task_pelt_event opts t).records RecKind.taskUtilAvg = false ∧
      hasKind (handle_task_pelt_event opts t).records RecKind.taskUclampedAvg = false) ∧
    (t.uclamp_min = SENTINEL ∨ t.uclamp_max = SENTINEL →
      hasKind (handle_task_pelt_event opts t).records RecKind.taskUclampedAvg = false) ∧
    (t.util_est_enqueued = SENTINEL →
      hasKind (handle_task_pelt_event opts t).records RecKind.taskUtilEstEnqueued = false ∧
      hasKind (handle_task_pelt_event opts t).records RecKind.taskUtilEstEwma = false) ∧
    (opts.util_est_task = true → ignore_pid_comm opts t.pid t.comm = false →
      t.util_est_enqueued ≠ SENTINEL →
      TraceRecord.taskUtilEstEwma t.ts t.comm t.pid t.util_est_ewma ∈
        (handle_task_pelt_event opts t).records) ∧
    (l.overloaded = -1 →
      hasKind (handle_lb_event l).records RecKind.lbOverloaded = false) ∧
    (l.overutilized = -1 →
      hasKind (handle_lb_event l).records RecKind.lbOverutilized = false) ∧
    (l.misfit_task_load = -1 →
      hasKind (handle_lb_event l).records RecKind.lbMisfit = false) := by
  refine ⟨?_, ?_, ?_, ?_, ?_, ?_, ?_, ?_, ?_, ?_, ?_, ?_, ?_, ?_, ?_⟩
  · intro h
    rw [hasKind_false_iff]
    intro r hr
    rw [mem_rq_pelt_iff] at hr
    rcases hr with ⟨_, _, rfl⟩ | ⟨_, _, rfl⟩ | ⟨_, _, rfl⟩ | ⟨_, _, _, rfl⟩ |
      ⟨_, _, _, _, _, rfl⟩ | ⟨_, _, _, rfl⟩ | ⟨_, _, _, rfl⟩ | ⟨_, _, _, rfl⟩ | ⟨_, _, rfl⟩ <;>
      simp_all [TraceRecord.kind]
  · intro h
    rw [hasKind_false_iff]
    intro r hr
    rw [mem_rq_pelt_iff] at hr
    rcases hr with ⟨_, _, rfl⟩ | ⟨_, _, rfl⟩ | ⟨_, _, rfl⟩ | ⟨_, _, _, rfl⟩ |
      ⟨_, _, _, _, _, rfl⟩ | ⟨_, _, _, rfl⟩ | ⟨_, _, _, rfl⟩ | ⟨_, _, _, rfl⟩ | ⟨_, _, rfl⟩ <;>
      simp_all [TraceRecord.kind]
  · intro h
    refine ⟨?_, ?_, ?_, ?_, ?_⟩ <;> rw [hasKind_false_iff] <;> intro r hr <;>
      rw [mem_rq_pelt_iff] at hr <;>
      rcases hr with ⟨_, _, rfl⟩ | ⟨_, _, rfl⟩ | ⟨_, _, rfl⟩ | ⟨_, _, _, rfl⟩ |
        ⟨_, _, _, _, _, rfl⟩ | ⟨_, _, _, rfl⟩ | ⟨_, _, _, rfl⟩ | ⟨_, _, _, rfl⟩ | ⟨_, _, rfl⟩ <;>
      simp_all [TraceRecord.kind]
  · intro h
    rcases h with h | h <;> rw [hasKind_false_iff] <;> intro r hr <;>
      rw [mem_rq_pelt_iff] at hr <;>
      rcases hr with ⟨_, _, rfl⟩ | ⟨_, _, rfl⟩ | ⟨_, _, rfl⟩ | ⟨_, _, _, rfl⟩ |
        ⟨_, _, _, _, _, rfl⟩ | ⟨_, _, _, rfl⟩ | ⟨_, _, _, rfl⟩ | ⟨_, _, _, rfl⟩ | ⟨_, _, rfl⟩ <;>
      simp_all [TraceRecord.kind]
  · intro h
    rw [hasKind_false_iff]
    intro r hr
    rw [mem_rq_pelt_iff] at hr
    rcases hr with ⟨_, _, rfl⟩ | ⟨_, _, rfl⟩ | ⟨_, _, rfl⟩ | ⟨_, _, _, rfl⟩ |
      ⟨_, _, _, _, _, rfl⟩ | ⟨_, _, _, rfl⟩ | ⟨_, _, _, rfl⟩ | ⟨_, _, _, rfl⟩ | ⟨_, _, rfl⟩ <;>
      simp_all [TraceRecord.kind]
  · intro h1 h2
    exact (mem_rq_pelt_iff opts e _).mpr (Or.inr (Or.inr (Or.inl ⟨h1, h2, rfl⟩)))
  · intro h
    rw [hasKind_false_iff]
    intro r hr
    rw [mem_task_pelt_iff] at hr
    rcases hr.2 with ⟨_, _, rfl⟩ | ⟨_, _, rfl⟩ | ⟨_, _, rfl⟩ | ⟨_, _, _, _, rfl⟩ |
      ⟨_, _, rfl⟩ | ⟨_, _, rfl⟩ <;> simp_all [TraceRecord.kind]
  · intro h
    rw [hasKind_false_iff]
    intro r hr
    rw [mem_task_pelt_iff] at hr
    rcases hr.2 with ⟨_, _, rfl⟩ | ⟨_, _, rfl⟩ | ⟨_, _, rfl⟩ | ⟨_, _, _, _, rfl⟩ |
      ⟨_, _, rfl⟩ | ⟨_, _, rfl⟩ <;> simp_all [TraceRecord.kind]
  · intro h
    refine ⟨?_, ?_⟩ <;> rw [hasKind_false_iff] <;> intro r hr <;>
      rw [mem_task_pelt_iff] at hr <;>
      rcases hr.2 with ⟨_, _, rfl⟩ | ⟨_, _, rfl⟩ | ⟨_, _, rfl⟩ | ⟨_, _, _, _, rfl⟩ |
        ⟨_, _, rfl⟩ | ⟨_, _, rfl⟩ <;> simp_all [TraceRecord.kind]
  · intro h
    rcases h with h | h <;> rw [hasKind_false_iff] <;> intro r hr <;>
      rw [mem_task_pelt_iff] at hr <;>
      rcases hr.2 with ⟨_, _, rfl⟩ | ⟨_, _, rfl⟩ | ⟨_, _, rfl⟩ | ⟨_, _, _, _, rfl⟩ |
        ⟨_, _, rfl⟩ | ⟨_, _, rfl⟩ <;> simp_all [TraceRecord.kind]
  · intro h
    refine ⟨?_, ?_⟩ <;> rw [hasKind_false_iff] <;> intro r hr <;>
      rw [mem_task_pelt_iff] at hr <;>
      rcases hr.2 with ⟨_, _, rfl⟩ | ⟨_, _, rfl⟩ | ⟨_, _, rfl⟩ | ⟨_, _, _, _, rfl⟩ |
        ⟨_, _, rfl⟩ | ⟨_, _, rfl⟩ <;> simp_all [TraceRecord.kind]
  · intro h1 h2 h3
    exact (mem_task_pelt_iff opts t _).mpr
      ⟨h2, Or.inr (Or.inr (Or.inr (Or.inr (Or.inr ⟨h1, h3, rfl⟩))))⟩
  · intro h
    simp only [handle_lb_event, hasKind, h, List.any_append]
    split_ifs <;> simp_all [TraceRecord.kind]
  · intro h
    simp only [handle_lb_event, hasKind, h, List.any_append]
    split_ifs <;> simp_all [TraceRecord.kind]
  · intro h
    simp only [handle_lb_event, hasKind, h, List.any_append]
    split_ifs <;> simp_all [TraceRecord.kind]

/-- An rq event with every numeric field sentinel and an untracked type. -/
def evAllSentinel : RqPeltEvent :=
  ⟨1, 0, PeltType.cfs, SENTINEL, SENTINEL, SENTINEL, SENTINEL, SENTINEL, SENTINEL⟩

/-- A task event with every numeric field sentinel. -/
def evTaskSentinel : TaskPeltEvent :=
  ⟨1, 2, ['a'], SENTINEL, SENTINEL, SENTINEL, SENTINEL, SENTINEL, SENTINEL, SENTINEL⟩

/-- An lb event with the three optional signals sentinel. -/
def evLbSentinel : LbEvent := ⟨1, LbPhase.load_balance, true, 0, 1, -1, -1, -1, 0⟩

/-- An all-capabilities-on configuration with empty filters. -/
def optsAllOn : SaOpts :=
  ⟨true, true, true, true, true, true, true, true,
   true, true, true, true, true, true, true, true, [], []⟩

/-- C1 witness: the amended statement applied to concrete all-sentinel
events under the all-on configuration, plus both exception clauses at
the concrete events of the counterexample. -/
theorem claim_C1_witness :
    hasKind (handle_rq_pelt_event optsAllOn evAllSentinel).records RecKind.cpuLoadAvg = false ∧
    hasKind (handle_rq_pelt_event optsAllOn evAllSentinel).records RecKind.cpuRunnableAvg = false ∧
    hasKind (handle_rq_pelt_event optsAllOn evAllSentinel).records RecKind.cpuUtilAvg = false ∧
    hasKind (handle_rq_pelt_event optsAllOn evAllSentinel).records RecKind.cpuUclampedAvg = false ∧
    hasKind (handle_rq_pelt_event optsAllOn evAllSentinel).records RecKind.cpuUtilEstEnqueued = false ∧
    hasKind (handle_task_pelt_event optsAllOn evTaskSentinel).records RecKind.taskLoadAvg = false ∧
    hasKind (handle_task_pelt_event optsAllOn evTaskSentinel).records RecKind.taskUtilEstEnqueued = false ∧
    hasKind (handle_task_pelt_event optsAllOn evTaskSentinel).records RecKind.taskUtilEstEwma = false ∧
    hasKind (handle_lb_event evLbSentinel).records RecKind.lbOverloaded = false ∧
    TraceRecord.cpuLoadAvgThermal 100 0 SENTINEL ∈
      (handle_rq_pelt_event optsThermal evThermal).records ∧
    TraceRecord.taskUtilEstEwma 5 ['a'] 7 SENTINEL ∈
      (handle_task_pelt_event optsUtilEst evEwma).records := by
  obtain ⟨a1, a2, a3, _, a5, _, a7, _, _, _, a11, _, a13, _, _⟩ :=
    claim_C1_amended optsAllOn evAllSentinel evTaskSentinel evLbSentinel
  obtain ⟨_, _, _, _, _, b6, _, _, _, _, _, b12, _, _, _⟩ :=
    claim_C1_amended optsThermal evThermal evTaskSentinel evLbSentinel
  obtain ⟨_, _, _, _, _, _, _, _, _, _, _, c12, _, _, _⟩ :=
    claim_C1_amended optsUtilEst evAllSentinel evEwma evLbSentinel
  refine ⟨a1 rfl, a2 rfl, (a3 rfl).1, (a3 rfl).2.2.2.2, a5 rfl, a7 rfl,
    (a11 rfl).1, (a11 rfl).2, a13 rfl, b6 rfl rfl, c12 rfl (by decide) (by decide)⟩

/-! ## C7: process exit status -/

/-- Outcomes of a clean run: every external call succeeds. -/
def envClean : MainEnv := ⟨0, true, 0, 0, fun _ => 0, fun _ => 0⟩

/-- `sched_analyzer_bpf__load` fails with `-22` (`-EINVAL`). -/
def envLoadFail : MainEnv := ⟨0, true, -22, 0, fun _ => 0, fun _ => 0⟩

/-- `sched_analyzer_bpf__attach` fails with `-3`. -/
def envAttachFail : MainEnv := ⟨0, true, 0, -3, fun _ => 0, fun _ => 0⟩

/-- The fourth `pthread_create` (sched_switch) fails with `EAGAIN = 11`. -/
def envThreadFail : MainEnv := ⟨0, true, 0, 0, fun i => if i = 3 then 11 else 0, fun _ => 0⟩

/-- C7. The claim's first half holds (clean shutdown exits 0), but its
second half is contradicted by the code: on a fatal startup error the
`cleanup` path reassigns `err = event##_err ? 0 : pthread_join(...)` for
each of the eight events, and since the failing run never created the
later threads their `event##_err` is nonzero (`-1` from
`INIT_EVENT_THREAD`, or the `pthread_create` error), so the final `err`
is `0` and `main` returns `0` — not the magnitude of the first fatal
error — for skeleton load failures, attach failures and worker-thread
creation failures alike. (Only the pre-cleanup early returns, `argp_parse`
failure and a null skeleton open, produce a nonzero status.) -/
theorem claim_C7_exit_status :
    main_exit envClean = 0 ∧
    envLoadFail.load_err = -22 ∧ main_exit envLoadFail = 0 ∧
    envAttachFail.attach_err = -3 ∧ main_exit envAttachFail = 0 ∧
    envThreadFail.create_err 3 = 11 ∧ main_exit envThreadFail = 0 := by
  decide

/-! ## C9: kallsyms initialization -/

/-- C9. When argument parsing succeeds, `parse_kallsyms` appears in the
startup sequence iff the ipi capability is on, and the sequence splits
into a prefix holding every kallsyms initialization and a suffix holding
every worker spawn — so the Symbolizer is initialized, exactly when ipi
is enabled, before any consumer worker is spawned. -/
theorem claim_C9 (opts : SaOpts) (env : MainEnv) (h : env.argp_err = 0) :
    (StartupAction.initKallsyms ∈ main_startup_actions opts env ↔ opts.ipi = true) ∧
    ∃ pre post, main_startup_actions opts env = pre ++ post ∧
      (∀ i, StartupAction.spawnWorker i ∉ pre) ∧
      StartupAction.initKallsyms ∉ post := by
  have hsplit : main_startup_actions opts env =
      (StartupAction.parseArgs ::
        (if opts.ipi then [StartupAction.initKallsyms] else []) ++
        [StartupAction.initPerfetto, StartupAction.installSignals, StartupAction.openSkel]) ++
      (if env.open_ok = false then [] else
        [StartupAction.configureSkel, StartupAction.loadSkel] ++
        (if env.load_err ≠ 0 then [] else
          [StartupAction.attachSkel] ++
          (if env.attach_err ≠ 0 then [] else
            (spawnAttempts env).map StartupAction.spawnWorker ++
            (if (List.range 8).all (fun i => env.create_err i == 0) then
              [StartupAction.startTrace] else [])))) := by
    simp [main_startup_actions, h]
  have hpost : StartupAction.initKallsyms ∉
      (if env.open_ok = false then [] else
        [StartupAction.configureSkel, StartupAction.loadSkel] ++
        (if env.load_err ≠ 0 then [] else
          [StartupAction.attachSkel] ++
          (if env.attach_err ≠ 0 then [] else
            (spawnAttempts env).map StartupAction.spawnWorker ++
            (if (List.range 8).all (fun i => env.create_err i == 0) then
              [StartupAction.startTrace] else [])))) := by
    split_ifs <;> simp [List.mem_map]
  constructor
  · rw [hsplit]
    cases hipi : opts.ipi <;> simp [hpost, List.mem_append]
  · refine ⟨_, _, hsplit, ?_, hpost⟩
    intro i
    cases hipi : opts.ipi <;> simp [hipi]

/-- A configuration with ipi on, and a failure-free environment. -/
def optsIpi : SaOpts := { allOff with ipi := true }

/-- C9 witness: the membership equivalence at a concrete ipi-enabled
configuration and at one with ipi off, both under a failure-free
environment. -/
theorem claim_C9_witness :
    (StartupAction.initKallsyms ∈ main_startup_actions optsIpi envClean ↔
      optsIpi.ipi = true) ∧
    (StartupAction.initKallsyms ∈ main_startup_actions allOff envClean ↔
      allOff.ipi = true) :=
  ⟨(claim_C9 optsIpi envClean rfl).1, (claim_C9 allOff envClean rfl).1⟩

end SchedAnalyzer
